import Mathlib

/-!
Shallow embedding of the rotary-knob input pipeline from `src/main.rs`
(esp32-rotary-knob-test).

The pipeline turns edge notifications on three pins (button, phase A,
phase B) into knob events.  The event-loop subscribe closure in `main`
is embedded as the pure step function `processNotification`: it takes
the mutable state captured by the closure (`enc`, `button_pressed`,
`prev_time`) together with the values the closure reads from the
environment at processing time (the monotonic clock and the current pin
levels), and returns the updated state and the list of events pushed to
the mpsc channel during that invocation.

Timestamps are modelled as natural numbers of milliseconds.  The Rust
code subtracts `Duration`s (`new_time - prev_time`); since the clock is
monotonic and `prev_time` is only ever set to an earlier reading of the
same clock, the subtraction never underflows, and theorems that depend
on the subtraction carry the monotonicity hypothesis
`s.prev_time ≤ inp.now` where it matters.
-/

/-- Events delivered to the consumer (src/main.rs, `RotaryKnobEvent`). -/
inductive RotaryKnobEvent where
  | TurnedClockwise
  | TurnedCounterClockwise
  | ButtonPressed
  | ButtonReleased
deriving DecidableEq, Repr

/-- Identity of the pin that fired (src/main.rs, `PinId`). -/
inductive PinId where
  | Button
  | A
  | B
deriving DecidableEq, Repr

/-- Rotation direction returned by one decoder step
(`rotary_encoder_hal::Direction`). -/
inductive Direction where
  | Clockwise
  | CounterClockwise
  | None
deriving DecidableEq, Repr

/-- Modelled from the spec: the Quadrature Decoder state
(`rotary_encoder_hal::Rotary`, an external crate not present in src/).
Per spec §3, QuadratureState is "the previous sampled (phaseA, phaseB)
level pair". -/
structure Rotary where
  prevA : Bool
  prevB : Bool
deriving DecidableEq, Repr

/-- Modelled from the spec: the "standard four-state quadrature
gray-code table" of spec §4.1, given by the clockwise gray-code cycle
00 → 01 → 11 → 10 → 00 (each step changes exactly one bit; spec §8
scenario A labels 00 → 01 → 11 as clockwise). -/
def cwNext : Bool × Bool → Bool × Bool
  | (false, false) => (false, true)
  | (false, true) => (true, true)
  | (true, true) => (true, false)
  | (true, false) => (false, false)

/-- Modelled from the spec: one decoder transition mapped through the
gray-code table (spec §4.1): a single clockwise gray-code step yields
`Clockwise`, a single counter-clockwise step yields
`CounterClockwise`, and "ambiguous or repeated states (no movement, or
a double-step indicating a missed edge) resolve to None". -/
def quadTable (old new : Bool × Bool) : Direction :=
  if new = cwNext old then Direction.Clockwise
  else if old = cwNext new then Direction.CounterClockwise
  else Direction.None

/-- Modelled from the spec: `Rotary::update` of the external
`rotary_encoder_hal` crate (spec §4.1): it reads the two current phase
levels, computes the direction of the transition from the previous
(phaseA, phaseB) pair to the current one through the gray-code table,
and "always updates QuadratureState to the new pair as a side effect,
unconditionally".  No error conditions; any input pair is legal. -/
def Rotary.update (r : Rotary) (a b : Bool) : Direction × Rotary :=
  (quadTable (r.prevA, r.prevB) (a, b), ⟨a, b⟩)

/-- Mutable state captured by the subscribe closure in `main`
(src/main.rs lines 136-139): the decoder `enc`, the button level
tracker `button_pressed`, and the debounce timestamp `prev_time`. -/
structure LoopState where
  enc : Rotary
  button_pressed : Bool
  prev_time : Nat
deriving DecidableEq, Repr

/-- Values the subscribe closure reads from the environment during one
invocation: the monotonic clock (`systime.now()`), the phase levels the
decoder samples inside `enc.update()`, and the button level
(`io2.is_low()`). -/
structure Inputs where
  now : Nat
  phaseA : Bool
  phaseB : Bool
  buttonLow : Bool
deriving DecidableEq, Repr

/-- The Button arm of the closure (src/main.rs lines 168-178): compare
the current level `c` with `button_pressed`; on a change store the new
level and send `ButtonPressed` or `ButtonReleased`, otherwise do
nothing. -/
def buttonObserve (button_pressed c : Bool) : Bool × List RotaryKnobEvent :=
  if button_pressed ≠ c then
    (c, [if c then RotaryKnobEvent.ButtonPressed else RotaryKnobEvent.ButtonReleased])
  else
    (button_pressed, [])

/-- The events pushed for one decoder result in the `PinId::A | PinId::B`
arm (src/main.rs lines 157-166). -/
def directionEvents : Direction → List RotaryKnobEvent
  | Direction.Clockwise => [RotaryKnobEvent.TurnedClockwise]
  | Direction.CounterClockwise => [RotaryKnobEvent.TurnedCounterClockwise]
  | Direction.None => []

/-- The event-loop subscribe closure in `main` (src/main.rs lines
146-180), as a pure step function.  If less than 100 ms elapsed since
`prev_time`, the notification is discarded after still calling
`enc.update()` (lines 149-153).  Otherwise `prev_time` is set to the
current time and the notification is dispatched on the pin id: phases
A/B run the decoder and send the corresponding event if a direction
resulted; Button runs the edge detector. -/
def processNotification (s : LoopState) (pin : PinId) (inp : Inputs) :
    LoopState × List RotaryKnobEvent :=
  if inp.now - s.prev_time < 100 then
    let u := s.enc.update inp.phaseA inp.phaseB
    ({ s with enc := u.2 }, [])
  else
    let s1 : LoopState := { s with prev_time := inp.now }
    match pin with
    | PinId.A | PinId.B =>
      let u := s1.enc.update inp.phaseA inp.phaseB
      ({ s1 with enc := u.2 }, directionEvents u.1)
    | PinId.Button =>
      let o := buttonObserve s1.button_pressed inp.buttonLow
      ({ s1 with button_pressed := o.1 }, o.2)

/-- Repeated invocation of the closure on a sequence of notifications,
threading the captured state and concatenating the pushed events in
order. -/
def runNotifications (s : LoopState) : List (PinId × Inputs) → LoopState × List RotaryKnobEvent
  | [] => (s, [])
  | (p, i) :: rest =>
    let r := processNotification s p i
    let r2 := runNotifications r.1 rest
    (r2.1, r.2 ++ r2.2)

/-- Feeding a sequence of (phaseA, phaseB) pairs to the decoder one at a
time, collecting the direction of each step. -/
def runDecoder (r : Rotary) : List (Bool × Bool) → List Direction
  | [] => []
  | p :: ps =>
    let u := r.update p.1 p.2
    u.1 :: runDecoder u.2 ps

/-- The claim-side reference for C4: apply the gray-code table pairwise
to consecutive phase pairs of the sequence, starting from the initial
pair `p0`. -/
def pairwiseTable (p0 : Bool × Bool) (ps : List (Bool × Bool)) : List Direction :=
  (List.zip (p0 :: ps) ps).map fun q => quadTable q.1 q.2

/-- A direction is an emitted (non-`None`) one. -/
def Direction.isSome : Direction → Bool
  | Direction.None => false
  | _ => true

/-- Outcome of posting a notification to the background event loop from
`handle_interrupt`. -/
inductive PostError where
  | err
deriving DecidableEq, Repr

/-- Outcome of one call of `handle_interrupt`: either the hand-off
completed normally, or the `.unwrap()` on the failed post panicked and
the program terminated fatally. -/
inductive DispatchResult where
  | completed
  | panicked
deriving DecidableEq, Repr

/-- `handle_interrupt` (src/main.rs lines 85-91): post the pin-identity
notification to the serialized event loop and `.unwrap()` the result.
`postResult` is the outcome of the single `post` call it makes; the
function returns the dispatch outcome together with the number of post
attempts performed.  A failed post is unwrapped into a panic and never
retried. -/
def handle_interrupt (pin : PinId) (postResult : PinId → Except PostError Unit) :
    DispatchResult × Nat :=
  match postResult pin with
  | Except.ok _ => (DispatchResult.completed, 1)
  | Except.error _ => (DispatchResult.panicked, 1)

/-- Modelled from the spec: the Knob Event Channel
(`std::sync::mpsc::channel`, standard library code not present in
src/), spec §4.5: "an unbounded, ordered, single-producer /
single-consumer queue".  A channel state records every event the
producer has pushed, in order, and every event the consumer has
received, in order. -/
structure ChanState (α : Type) where
  sent : List α
  received : List α
deriving DecidableEq, Repr

/-- Modelled from the spec: one step of the channel under an arbitrary
interleaving of producer and consumer timing — either the producer
pushes one event (`send` never blocks, the queue is unbounded), or the
consumer receives the oldest not-yet-received event (`recv` blocks
until one is available, so it can only fire when one exists). -/
inductive ChanStep {α : Type} : ChanState α → ChanState α → Prop
  | push (s : ChanState α) (e : α) :
      ChanStep s ⟨s.sent ++ [e], s.received⟩
  | pop (s : ChanState α) (h : s.received.length < s.sent.length) :
      ChanStep s ⟨s.sent, s.received ++ [s.sent.get ⟨s.received.length, h⟩]⟩

/-- Modelled from the spec: a finite interleaving of producer and
consumer steps starting from a given channel state. -/
inductive ChanReach {α : Type} : ChanState α → ChanState α → Prop
  | refl (s : ChanState α) : ChanReach s s
  | step {s t u : ChanState α} : ChanStep s t → ChanReach t u → ChanReach s u

/-- Claim C1: Debounce Gate semantics.  For every notification processed
at monotonic time `now`: if `now - prev_time < 100` ms the notification
is suppressed (no event pushed) and `prev_time` is unchanged; otherwise
it is accepted and `prev_time` is set to `now`.  In particular, for
`t0 < t1 < t2` with `t1 - t0 < 100` and `t2 - t0 ≥ 100` and `t0` the
last accepted time, the notification at `t1` is suppressed leaving
`prev_time = t0`, and the one at `t2` is accepted setting
`prev_time = t2`. -/
theorem debounce_gate_semantics :
    (∀ (s : LoopState) (pin : PinId) (inp : Inputs), s.prev_time ≤ inp.now →
      (inp.now - s.prev_time < 100 →
        (processNotification s pin inp).2 = [] ∧
        (processNotification s pin inp).1.prev_time = s.prev_time) ∧
      (¬ inp.now - s.prev_time < 100 →
        (processNotification s pin inp).1.prev_time = inp.now)) ∧
    (∀ (s : LoopState) (p1 p2 : PinId) (i1 i2 : Inputs),
      s.prev_time < i1.now → i1.now < i2.now →
      i1.now - s.prev_time < 100 → 100 ≤ i2.now - s.prev_time →
      (processNotification s p1 i1).2 = [] ∧
      (processNotification s p1 i1).1.prev_time = s.prev_time ∧
      (processNotification (processNotification s p1 i1).1 p2 i2).1.prev_time = i2.now) := by
  have hgen : ∀ (s : LoopState) (pin : PinId) (inp : Inputs),
      (inp.now - s.prev_time < 100 →
        (processNotification s pin inp).2 = [] ∧
        (processNotification s pin inp).1.prev_time = s.prev_time) ∧
      (¬ inp.now - s.prev_time < 100 →
        (processNotification s pin inp).1.prev_time = inp.now) := by
    intro s pin inp
    constructor
    · intro h
      simp [processNotification, h]
    · intro h
      cases pin <;> simp [processNotification, h, buttonObserve]
  refine ⟨fun s pin inp _ => hgen s pin inp, ?_⟩
  intro s p1 p2 i1 i2 h01 h12 hsup hacc
  obtain ⟨hev, hpt⟩ := (hgen s p1 i1).1 hsup
  refine ⟨hev, hpt, ?_⟩
  have hacc2 : ¬ i2.now - (processNotification s p1 i1).1.prev_time < 100 := by
    rw [hpt]; omega
  exact (hgen (processNotification s p1 i1).1 p2 i2).2 hacc2

/-- Closed instance of the debounce-gate theorem: from `prev_time = 0`,
a notification at `t1 = 40` is suppressed and one at `t2 = 130` is then
accepted. -/
theorem debounce_gate_semantics_witness :
    (processNotification ⟨⟨false, false⟩, false, 0⟩ PinId.A ⟨40, false, true, false⟩).2 = [] ∧
    (processNotification ⟨⟨false, false⟩, false, 0⟩ PinId.A
        ⟨40, false, true, false⟩).1.prev_time = 0 ∧
    (processNotification
        (processNotification ⟨⟨false, false⟩, false, 0⟩ PinId.A ⟨40, false, true, false⟩).1
        PinId.B ⟨130, true, true, false⟩).1.prev_time = 130 :=
  debounce_gate_semantics.2 ⟨⟨false, false⟩, false, 0⟩ PinId.A PinId.B
    ⟨40, false, true, false⟩ ⟨130, true, true, false⟩
    (by decide) (by decide) (by decide) (by decide)

/-- Claim C2 counterexample: a Button notification arriving 50 ms after
the last accepted notification, with the observed level (`true`)
differing from the stored `button_pressed` (`false`).  The claim says
the Button Edge Detector is always invoked, so `button_pressed` would
become `true` and a `ButtonPressed` event would be pushed; the code
suppresses the notification instead — no event and no state change. -/
theorem button_not_exempt_from_gate :
    (⟨50, false, false, true⟩ : Inputs).buttonLow ≠
      (⟨⟨false, false⟩, false, 0⟩ : LoopState).button_pressed ∧
    (processNotification ⟨⟨false, false⟩, false, 0⟩ PinId.Button ⟨50, false, false, true⟩).2 = [] ∧
    (processNotification ⟨⟨false, false⟩, false, 0⟩ PinId.Button
        ⟨50, false, false, true⟩).1.button_pressed = false := by
  refine ⟨by decide, ?_, ?_⟩ <;> simp [processNotification]

/-- Claim C2 (amended): the debounce gate applies to the button path as
well.  A Button notification processed at least 100 ms after the last
accepted notification always invokes the Button Edge Detector (level
compared, state updated on change, resulting event pushed); a Button
notification processed strictly less than 100 ms after the last
accepted notification is suppressed — the detector is not invoked, no
event is pushed, and `button_pressed` is unchanged. -/
theorem button_path_gated (s : LoopState) (inp : Inputs) :
    (¬ inp.now - s.prev_time < 100 →
      processNotification s PinId.Button inp =
        (⟨s.enc, (buttonObserve s.button_pressed inp.buttonLow).1, inp.now⟩,
          (buttonObserve s.button_pressed inp.buttonLow).2)) ∧
    (inp.now - s.prev_time < 100 →
      (processNotification s PinId.Button inp).2 = [] ∧
      (processNotification s PinId.Button inp).1.button_pressed = s.button_pressed) := by
  constructor
  · intro h
    simp [processNotification, h]
  · intro h
    simp [processNotification, h]

/-- Closed instance of the amended C2 theorem: at 120 ms after the last
accepted notification a `ButtonPressed` is emitted, at 50 ms the
notification is suppressed. -/
theorem button_path_gated_witness :
    processNotification ⟨⟨false, false⟩, false, 0⟩ PinId.Button ⟨120, false, false, true⟩ =
      (⟨⟨false, false⟩, true, 120⟩, [RotaryKnobEvent.ButtonPressed]) ∧
    (processNotification ⟨⟨false, false⟩, false, 0⟩ PinId.Button ⟨50, false, false, true⟩).2 = [] ∧
    (processNotification ⟨⟨false, false⟩, false, 0⟩ PinId.Button
        ⟨50, false, false, true⟩).1.button_pressed = false :=
  ⟨(button_path_gated ⟨⟨false, false⟩, false, 0⟩ ⟨120, false, false, true⟩).1 (by decide),
    (button_path_gated ⟨⟨false, false⟩, false, 0⟩ ⟨50, false, false, true⟩).2 (by decide)⟩

/-- Claim C9: a Button notification suppressed by the debounce gate
(arriving strictly less than 100 ms after the last accepted
notification) still performs exactly one Quadrature Decoder state
update, while `button_pressed` and `prev_time` are left unchanged and
no event is emitted. -/
theorem suppressed_button_still_updates_decoder (s : LoopState) (inp : Inputs)
    (h : inp.now - s.prev_time < 100) :
    processNotification s PinId.Button inp =
      ({ s with enc := (s.enc.update inp.phaseA inp.phaseB).2 }, []) := by
  simp [processNotification, h]

/-- Closed instance of the suppressed-button theorem. -/
theorem suppressed_button_still_updates_decoder_witness :
    processNotification ⟨⟨false, false⟩, false, 0⟩ PinId.Button ⟨30, true, false, true⟩ =
      (⟨⟨true, false⟩, false, 0⟩, []) :=
  suppressed_button_still_updates_decoder ⟨⟨false, false⟩, false, 0⟩
    ⟨30, true, false, true⟩ (by decide)

/-- Claim C10: the debounce timestamp is shared across all three pins.
After an accepted notification on any pin `p1` at time `i1.now`,
`prev_time` equals `i1.now` whatever the pin was, and any notification
on any pin `p2` processed strictly less than 100 ms later is
suppressed: no event is pushed and `button_pressed` is unchanged — in
particular an accepted rotation notification causes a button press
arriving within 100 ms to produce no `ButtonPressed` event and no
`button_pressed` update. -/
theorem debounce_timestamp_shared_across_pins (s : LoopState) (p1 p2 : PinId)
    (i1 i2 : Inputs) (hacc : ¬ i1.now - s.prev_time < 100)
    (hnear : i2.now - i1.now < 100) :
    (processNotification s p1 i1).1.prev_time = i1.now ∧
    (processNotification (processNotification s p1 i1).1 p2 i2).2 = [] ∧
    (processNotification (processNotification s p1 i1).1 p2 i2).1.button_pressed =
      (processNotification s p1 i1).1.button_pressed := by
  have hpt : (processNotification s p1 i1).1.prev_time = i1.now := by
    cases p1 <;> simp [processNotification, hacc, buttonObserve]
  have hsup : i2.now - (processNotification s p1 i1).1.prev_time < 100 := by
    rw [hpt]; omega
  have h2 : processNotification (processNotification s p1 i1).1 p2 i2 =
      ({ (processNotification s p1 i1).1 with
          enc := ((processNotification s p1 i1).1.enc.update i2.phaseA i2.phaseB).2 }, []) := by
    generalize (processNotification s p1 i1).1 = s1 at hsup ⊢
    simp [processNotification, hsup]
  exact ⟨hpt, by rw [h2], by rw [h2]⟩

/-- Closed instance of the shared-timestamp theorem: an accepted
rotation notification on phase A at 150 ms suppresses a button press
arriving at 200 ms. -/
theorem debounce_timestamp_shared_across_pins_witness :
    (processNotification ⟨⟨false, false⟩, false, 0⟩ PinId.A ⟨150, false, true, false⟩).1.prev_time
        = 150 ∧
    (processNotification
        (processNotification ⟨⟨false, false⟩, false, 0⟩ PinId.A ⟨150, false, true, false⟩).1
        PinId.Button ⟨200, false, true, true⟩).2 = [] ∧
    (processNotification
        (processNotification ⟨⟨false, false⟩, false, 0⟩ PinId.A ⟨150, false, true, false⟩).1
        PinId.Button ⟨200, false, true, true⟩).1.button_pressed =
      (processNotification ⟨⟨false, false⟩, false, 0⟩ PinId.A
          ⟨150, false, true, false⟩).1.button_pressed :=
  debounce_timestamp_shared_across_pins ⟨⟨false, false⟩, false, 0⟩ PinId.A PinId.Button
    ⟨150, false, true, false⟩ ⟨200, false, true, true⟩ (by decide) (by decide)

/-- Claim C3: every PhaseA/PhaseB notification, whether the debounce
gate accepts or suppresses it, results in exactly one Quadrature
Decoder state update — after one notification the decoder state is one
`update` step from the previous state, and after a sequence of n
phase-pin notifications the decoder state is the n-fold left fold of
one update per notification, so the decoder never observes a stale
two-step-old phase pair. -/
theorem phase_notification_updates_decoder_once :
    (∀ (s : LoopState) (pin : PinId) (inp : Inputs),
      pin = PinId.A ∨ pin = PinId.B →
      (processNotification s pin inp).1.enc = (s.enc.update inp.phaseA inp.phaseB).2) ∧
    (∀ (s : LoopState) (l : List (PinId × Inputs)),
      (∀ pi ∈ l, pi.1 = PinId.A ∨ pi.1 = PinId.B) →
      (runNotifications s l).1.enc =
        l.foldl (fun e pi => (e.update pi.2.phaseA pi.2.phaseB).2) s.enc) := by
  have hone : ∀ (s : LoopState) (pin : PinId) (inp : Inputs),
      pin = PinId.A ∨ pin = PinId.B →
      (processNotification s pin inp).1.enc = (s.enc.update inp.phaseA inp.phaseB).2 := by
    intro s pin inp hpin
    rcases hpin with h | h <;> subst h <;>
      simp only [processNotification] <;> split <;> simp
  refine ⟨hone, ?_⟩
  intro s l
  induction l generalizing s with
  | nil => intro _; simp [runNotifications]
  | cons p rest ih =>
    intro hall
    have hmem : p.1 = PinId.A ∨ p.1 = PinId.B := hall p (List.mem_cons_self p rest)
    have hstep := hone s p.1 p.2
    simp only [runNotifications, List.foldl_cons]
    rw [ih (processNotification s p.1 p.2).1 fun q hq => hall q (List.mem_cons_of_mem p hq)]
    rw [hone s p.1 p.2 hmem]

/-- Closed instance of the one-decoder-update theorem: two phase
notifications, the first suppressed and the second accepted, each
advance the decoder state exactly one step. -/
theorem phase_notification_updates_decoder_once_witness :
    (runNotifications ⟨⟨false, false⟩, false, 0⟩
        [(PinId.A, ⟨30, false, true, false⟩), (PinId.B, ⟨60, true, true, false⟩)]).1.enc =
      [(PinId.A, (⟨30, false, true, false⟩ : Inputs)),
        (PinId.B, (⟨60, true, true, false⟩ : Inputs))].foldl
        (fun e pi => (e.update pi.2.phaseA pi.2.phaseB).2) ⟨false, false⟩ :=
  phase_notification_updates_decoder_once.2 ⟨⟨false, false⟩, false, 0⟩
    [(PinId.A, ⟨30, false, true, false⟩), (PinId.B, ⟨60, true, true, false⟩)]
    (by decide)

/-- Claim C5: Button Edge Detector contract.  When the observed level
equals the stored one it updates nothing and emits no event; when it
differs it stores the new level and emits exactly one event —
`ButtonPressed` on a released-to-asserted transition, `ButtonReleased`
on an asserted-to-released transition. -/
theorem button_edge_detector_contract (b c : Bool) :
    (c = b → buttonObserve b c = (b, [])) ∧
    (c ≠ b → (buttonObserve b c).1 = c) ∧
    (b = false → c = true → buttonObserve b c = (true, [RotaryKnobEvent.ButtonPressed])) ∧
    (b = true → c = false → buttonObserve b c = (false, [RotaryKnobEvent.ButtonReleased])) := by
  cases b <;> cases c <;> decide

/-- Closed instance of the Button Edge Detector contract: no change on
equal levels, one `ButtonPressed` on a rising observation. -/
theorem button_edge_detector_contract_witness :
    buttonObserve false false = (false, []) ∧
    buttonObserve false true = (true, [RotaryKnobEvent.ButtonPressed]) :=
  ⟨(button_edge_detector_contract false false).1 rfl,
    (button_edge_detector_contract false true).2.2.1 rfl rfl⟩

/-- Claim C6: for every PhaseA/PhaseB notification accepted by the
debounce gate the decoder is invoked, and exactly one
`TurnedClockwise` event is pushed if it returns `Clockwise`, exactly
one `TurnedCounterClockwise` if it returns `CounterClockwise`, and no
event if it returns `None`. -/
theorem accepted_phase_event_mapping (s : LoopState) (pin : PinId) (inp : Inputs)
    (hpin : pin = PinId.A ∨ pin = PinId.B)
    (hacc : ¬ inp.now - s.prev_time < 100) :
    (processNotification s pin inp).1.enc = (s.enc.update inp.phaseA inp.phaseB).2 ∧
    ((s.enc.update inp.phaseA inp.phaseB).1 = Direction.Clockwise →
      (processNotification s pin inp).2 = [RotaryKnobEvent.TurnedClockwise]) ∧
    ((s.enc.update inp.phaseA inp.phaseB).1 = Direction.CounterClockwise →
      (processNotification s pin inp).2 = [RotaryKnobEvent.TurnedCounterClockwise]) ∧
    ((s.enc.update inp.phaseA inp.phaseB).1 = Direction.None →
      (processNotification s pin inp).2 = []) := by
  rcases hpin with h | h <;> subst h <;>
    refine ⟨by simp [processNotification, hacc], ?_, ?_, ?_⟩ <;>
    intro hd <;> simp [processNotification, hacc, hd, directionEvents]

/-- Closed instance of the direction-to-event mapping: an accepted
phase-A notification stepping the gray code from 00 to 01 pushes
exactly one `TurnedClockwise`. -/
theorem accepted_phase_event_mapping_witness :
    (processNotification ⟨⟨false, false⟩, false, 0⟩ PinId.A ⟨100, false, true, false⟩).1.enc =
      ((⟨false, false⟩ : Rotary).update false true).2 ∧
    (processNotification ⟨⟨false, false⟩, false, 0⟩ PinId.A ⟨100, false, true, false⟩).2 =
      [RotaryKnobEvent.TurnedClockwise] :=
  ⟨(accepted_phase_event_mapping ⟨⟨false, false⟩, false, 0⟩ PinId.A ⟨100, false, true, false⟩
      (Or.inl rfl) (by decide)).1,
    (accepted_phase_event_mapping ⟨⟨false, false⟩, false, 0⟩ PinId.A ⟨100, false, true, false⟩
      (Or.inl rfl) (by decide)).2.1 (by decide)⟩

/-- Helper: running the decoder over a sequence of phase pairs produces
exactly the pairwise gray-code table applied to consecutive pairs,
starting from the decoder's stored previous pair. -/
theorem runDecoder_eq_pairwiseTable (ps : List (Bool × Bool)) :
    ∀ r : Rotary, runDecoder r ps = pairwiseTable (r.prevA, r.prevB) ps := by
  induction ps with
  | nil => intro r; simp [runDecoder, pairwiseTable]
  | cons p rest ih =>
    intro r
    simp only [runDecoder, Rotary.update]
    rw [ih ⟨p.1, p.2⟩]
    simp [pairwiseTable]

/-- Claim C4: quadrature decode correctness.  For every sequence of
(phaseA, phaseB) pairs fed to the decoder one at a time, the sequence
of non-`None` directions produced equals the sequence obtained by
applying the standard four-state gray-code transition table pairwise to
consecutive phase pairs (repeated states and double-steps mapping to
`None`), and every input pair is legal: each of the n inputs yields
exactly one direction result. -/
theorem quadrature_decode_matches_table (r : Rotary) (ps : List (Bool × Bool)) :
    (runDecoder r ps).filter Direction.isSome =
      (pairwiseTable (r.prevA, r.prevB) ps).filter Direction.isSome ∧
    (runDecoder r ps).length = ps.length := by
  refine ⟨by rw [runDecoder_eq_pairwiseTable ps r], ?_⟩
  induction ps generalizing r with
  | nil => simp [runDecoder]
  | cons p rest ih => simp [runDecoder, ih]

/-- Helper: the prefix invariant of the Knob Event Channel — the
received sequence is exactly the first `received.length` events of the
sent sequence — is preserved by every producer or consumer step. -/
theorem chanStepInvariant {α : Type} {s t : ChanState α} (hst : ChanStep s t)
    (hinv : s.received = s.sent.take s.received.length) :
    t.received = t.sent.take t.received.length := by
  cases hst with
  | push e =>
    have hle : s.received.length ≤ s.sent.length := by
      have := congrArg List.length hinv
      simp at this
      omega
    simpa [List.take_append_of_le_length hle] using hinv
  | pop h =>
    simp only [List.length_append, List.length_singleton]
    calc s.received ++ [s.sent.get ⟨s.received.length, h⟩]
        = s.sent.take s.received.length ++ [s.sent.get ⟨s.received.length, h⟩] :=
          congrArg (fun l => l ++ [s.sent.get ⟨s.received.length, h⟩]) hinv
      _ = s.sent.take (s.received.length + 1) := by
          simp [List.take_concat_get' s.sent s.received.length h]

/-- Helper: the prefix invariant is preserved along any finite
interleaving of producer and consumer steps. -/
theorem chanReachInvariant {α : Type} {s t : ChanState α} (h : ChanReach s t)
    (hinv : s.received = s.sent.take s.received.length) :
    t.received = t.sent.take t.received.length := by
  induction h with
  | refl s => exact hinv
  | step hst _ ih => exact ih (chanStepInvariant hst hinv)

/-- Claim C7: Knob Event Channel ordering and completeness.  Under any
interleaving of producer and consumer steps starting from the empty
channel, the received sequence is exactly the prefix of the sent
sequence of its own length — FIFO order, no drop, no duplication — and
once the consumer has received as many events as were sent, it has
received exactly the sent sequence. -/
theorem knob_event_channel_fifo {α : Type} (s : ChanState α)
    (h : ChanReach (⟨[], []⟩ : ChanState α) s) :
    s.received = s.sent.take s.received.length ∧
    (s.received.length = s.sent.length → s.received = s.sent) := by
  have hinv := chanReachInvariant h (by simp)
  exact ⟨hinv, fun hlen => by rw [hinv, hlen, List.take_length]⟩

/-- Closed instance of the channel FIFO theorem: push `TurnedClockwise`
then `ButtonPressed`, then receive once — the consumer has received
exactly the first pushed event. -/
theorem knob_event_channel_fifo_witness :
    ChanReach (⟨[], []⟩ : ChanState RotaryKnobEvent)
      ⟨[RotaryKnobEvent.TurnedClockwise, RotaryKnobEvent.ButtonPressed],
        [RotaryKnobEvent.TurnedClockwise]⟩ ∧
    ([RotaryKnobEvent.TurnedClockwise] : List RotaryKnobEvent) =
      [RotaryKnobEvent.TurnedClockwise, RotaryKnobEvent.ButtonPressed].take
        ([RotaryKnobEvent.TurnedClockwise] : List RotaryKnobEvent).length := by
  have hreach : ChanReach (⟨[], []⟩ : ChanState RotaryKnobEvent)
      ⟨[RotaryKnobEvent.TurnedClockwise, RotaryKnobEvent.ButtonPressed],
        [RotaryKnobEvent.TurnedClockwise]⟩ :=
    ChanReach.step (ChanStep.push ⟨[], []⟩ RotaryKnobEvent.TurnedClockwise)
      (ChanReach.step
        (ChanStep.push ⟨[RotaryKnobEvent.TurnedClockwise], []⟩ RotaryKnobEvent.ButtonPressed)
        (ChanReach.step
          (ChanStep.pop
            ⟨[RotaryKnobEvent.TurnedClockwise, RotaryKnobEvent.ButtonPressed], []⟩
            (by decide))
          (ChanReach.refl _)))
  exact ⟨hreach, (knob_event_channel_fifo _ hreach).1⟩

/-- Claim C8: fatal dispatch failure.  `handle_interrupt` performs
exactly one post attempt, and whenever that post fails the `.unwrap()`
panics: the dispatch terminates fatally, the failed post is never
retried (the attempt count is still one), and processing never
continues past the failed hand-off (the outcome is not `completed`). -/
theorem dispatch_failure_is_fatal (pin : PinId) (post : PinId → Except PostError Unit) :
    (handle_interrupt pin post).2 = 1 ∧
    (∀ e, post pin = Except.error e →
      (handle_interrupt pin post).1 = DispatchResult.panicked ∧
      (handle_interrupt pin post).1 ≠ DispatchResult.completed) := by
  constructor
  · unfold handle_interrupt
    cases post pin <;> rfl
  · intro e he
    simp [handle_interrupt, he]

/-- Closed instance of the fatal-dispatch theorem: a post that always
fails makes `handle_interrupt` panic after its single attempt. -/
theorem dispatch_failure_is_fatal_witness :
    (handle_interrupt PinId.Button fun _ => Except.error PostError.err).2 = 1 ∧
    (handle_interrupt PinId.Button fun _ => Except.error PostError.err).1 =
      DispatchResult.panicked :=
  ⟨(dispatch_failure_is_fatal PinId.Button fun _ => Except.error PostError.err).1,
    ((dispatch_failure_is_fatal PinId.Button fun _ => Except.error PostError.err).2
      PostError.err rfl).1⟩
